import Mathlib

set_option autoImplicit false

/-!
Verification development for the catwalk model-serving core
(`src/catwalk/core/cache.py` and `src/catwalk/core/manager.py`).

The Python code is embedded shallowly:

* `OrderedDict[str, CacheEntry]` becomes an insertion-ordered association
  list with unique keys (`OD`).  Assigning to an existing key keeps its
  position (as in Python); `pop` followed by reinsertion appends at the end.
* `time.time()` becomes a `Nat` logical clock threaded through the state;
  each operation that reads the wall clock receives the current tick.
* A raised-and-propagating Python exception becomes an error result that
  still carries the mutated object state (a raise does not roll back the
  mutations already performed on `self`).
* Machine integers are `Int` (Python ints are unbounded anyway).
-/

/-! ## Cache entries and the ordered dictionary -/

/-- `CacheEntry` from `cache.py`: a value with its declared byte size and
access metadata. -/
structure CacheEntry (T : Type) where
  value : T
  size_bytes : Int
  last_accessed : Nat
  access_count : Nat
  deriving Repr, DecidableEq

/-- The `OrderedDict[str, CacheEntry[T]]` of `cache.py`, as an
insertion-ordered association list. -/
abbrev OD (T : Type) := List (String × CacheEntry T)

/-- `key in dict` / `dict[key]`: first binding of `k`, if any. -/
def odLookup {T : Type} (l : OD T) (k : String) : Option (CacheEntry T) :=
  match l with
  | [] => none
  | (k', e) :: rest => if k' = k then some e else odLookup rest k

/-- `dict.pop(k)`'s effect on the dictionary: remove the binding of `k`. -/
def odPop {T : Type} (l : OD T) (k : String) : OD T :=
  match l with
  | [] => []
  | (k', e) :: rest => if k' = k then rest else (k', e) :: odPop rest k

/-- `dict[k] = e`: replace in place when `k` is present (Python keeps the
position of an existing key), otherwise append at the most-recent end. -/
def odSet {T : Type} (l : OD T) (k : String) (e : CacheEntry T) : OD T :=
  match l with
  | [] => [(k, e)]
  | (k', e') :: rest => if k' = k then (k, e) :: rest else (k', e') :: odSet rest k e

/-- Sum of `size_bytes` over the live entries of a dictionary. -/
def sumSizes {T : Type} (l : OD T) : Int :=
  (l.map (fun p => p.2.size_bytes)).sum

/-! ## The LRU cache (`class LRUCache`) -/

/-- State of `LRUCache` from `cache.py`.  The constructor computes
`soft_limit_bytes or (max_size_bytes * 0.85)`, but the result is read by
no operation (the source only logs it), so the field records the
constructor argument verbatim; the derived float default is
unobservable. -/
structure LRUCache (T : Type) where
  cache : OD T
  max_size_bytes : Int
  soft_limit_bytes : Option Int
  current_size_bytes : Int
  deriving Repr, DecidableEq

/-- `LRUCache.__init__`: empty dictionary, zero accounted bytes. -/
def LRUCache.init (T : Type) (max_size_bytes : Int)
    (soft_limit_bytes : Option Int := none) : LRUCache T :=
  { cache := []
    max_size_bytes := max_size_bytes
    soft_limit_bytes := soft_limit_bytes
    current_size_bytes := 0 }

/-- `LRUCache.get`: on a miss return `None` with no state change; on a hit
pop the entry, stamp `last_accessed` with the current time, bump
`access_count`, reinsert at the most-recently-used end and return the
value. -/
def LRUCache.get {T : Type} (c : LRUCache T) (key : String) (now : Nat) :
    Option T × LRUCache T :=
  match odLookup c.cache key with
  | none => (none, c)
  | some entry =>
    let entry' : CacheEntry T :=
      { entry with last_accessed := now, access_count := entry.access_count + 1 }
    (some entry.value, { c with cache := odPop c.cache key ++ [(key, entry')] })

/-- `LRUCache._evict_lru`: pop the entry at the least-recently-used end of
the ordered dictionary and release its bytes; `False` when empty. -/
def LRUCache.evict_lru {T : Type} (c : LRUCache T) : Bool × LRUCache T :=
  match c.cache with
  | [] => (false, c)
  | (_, entry) :: rest =>
    (true,
      { c with
        cache := rest
        current_size_bytes := c.current_size_bytes - entry.size_bytes })

/-- Result of a mutating cache operation that can raise: an exception
carries the state the object was left in (Python raises do not roll back
`self`). -/
inductive PutResult (T : Type) where
  | ok (c : LRUCache T)
  | error (msg : String) (c : LRUCache T)
  deriving Repr, DecidableEq

/-- The state a `PutResult` left the cache in, raised or not. -/
def PutResult.state {T : Type} : PutResult T → LRUCache T
  | .ok c => c
  | .error _ c => c

/-- Whether the operation returned without raising. -/
def PutResult.isOk {T : Type} : PutResult T → Bool
  | .ok _ => true
  | .error _ _ => false

/-- The `while (current + size) > max` eviction loop of `LRUCache.put`,
expressed as structural recursion over the dictionary (each iteration of
the source loop pops the head entry via `_evict_lru`).  Returns whether
the loop exited normally (`false` means `_evict_lru` found an empty cache
and the loop raises), together with the remaining dictionary and the
adjusted byte account. -/
def evictLoopAux {T : Type} (max_size_bytes size_bytes : Int) (l : OD T)
    (cur : Int) : Bool × OD T × Int :=
  if cur + size_bytes > max_size_bytes then
    match l with
    | [] => (false, [], cur)
    | (_, entry) :: rest =>
      evictLoopAux max_size_bytes size_bytes rest (cur - entry.size_bytes)
  else (true, l, cur)

/-- The eviction loop of `LRUCache.put` acting on the whole cache state;
the raise is `ValueError("Cannot add item: cache full and nothing to
evict")`. -/
def LRUCache.evictLoop {T : Type} (c : LRUCache T) (size_bytes : Int) :
    PutResult T :=
  match evictLoopAux c.max_size_bytes size_bytes c.cache c.current_size_bytes with
  | (false, l, cur) =>
    .error "Cannot add item: cache full and nothing to evict"
      { c with cache := l, current_size_bytes := cur }
  | (true, l, cur) => .ok { c with cache := l, current_size_bytes := cur }

/-- `LRUCache.put`: if the key is present, release its bytes (the entry
itself stays in the dictionary); run the eviction loop; then build the new
entry, assign it into the dictionary and account its bytes. -/
def LRUCache.put {T : Type} (c : LRUCache T) (key : String) (value : T)
    (size_bytes : Int) (now : Nat) : PutResult T :=
  let c1 :=
    match odLookup c.cache key with
    | some old =>
      { c with current_size_bytes := c.current_size_bytes - old.size_bytes }
    | none => c
  match c1.evictLoop size_bytes with
  | .error msg c2 => .error msg c2
  | .ok c2 =>
    let entry : CacheEntry T :=
      { value := value, size_bytes := size_bytes, last_accessed := now
        access_count := 1 }
    .ok
      { c2 with
        cache := odSet c2.cache key entry
        current_size_bytes := c2.current_size_bytes + size_bytes }

/-- `LRUCache.clear`: drop all entries and reset the byte account. -/
def LRUCache.clear {T : Type} (c : LRUCache T) : LRUCache T :=
  { c with cache := [], current_size_bytes := 0 }

/-- The spec's store invariant: the byte account agrees with the live
entries and stays within the hard cap. -/
def SizeInvariant {T : Type} (c : LRUCache T) : Prop :=
  c.current_size_bytes = sumSizes c.cache ∧
    sumSizes c.cache ≤ c.max_size_bytes

instance {T : Type} (c : LRUCache T) : Decidable (SizeInvariant c) := by
  unfold SizeInvariant; infer_instance

/-! ## Concrete operation traces used to settle the cache claims -/

/-- Trace for C1, from a fresh 1000-byte cache:
`put "A" 600; put "B" 300; put "A" 800`.  The third put releases A's 600
bytes, then the eviction loop evicts A itself (it is still the
least-recently-used dictionary entry), subtracting its 600 bytes a second
time. -/
def c1trace : LRUCache Unit :=
  ((((LRUCache.init Unit 1000 none).put "A" () 600 0).state.put
      "B" () 300 1).state.put "A" () 800 2).state

/-- Trace for C4 — the update scenario of the repository's own
`test_eviction_with_updates`: `put model1 400; put model2 400;
put model1 800` in a 1000-byte cache. -/
def c4trace : LRUCache String :=
  ((((LRUCache.init String 1000 none).put "model1" "value1" 400 0).state.put
      "model2" "value2" 400 1).state.put "model1" "new_value" 800 2).state

/-- First trace for C3: `put "A" 500` then the oversized update
`put "A" 1200` in a 1000-byte cache. -/
def c3put : PutResult Unit :=
  (((LRUCache.init Unit 1000 none).put "A" () 500 0).state.put "A" () 1200 1)

/-- Second trace for C3: a fresh key oversized put, `put "A" 300` then
`put "X" 1200`, in a 1000-byte cache. -/
def c3put2 : PutResult Unit :=
  (((LRUCache.init Unit 1000 none).put "A" () 300 0).state.put "X" () 1200 1)

/-- Trace for C5's scenario: A, B, C each of 300 bytes in a 1000-byte
store, then `get A`, then `put D 300`. -/
def c5state : LRUCache Unit :=
  let c1 := ((LRUCache.init Unit 1000 none).put "A" () 300 0).state
  let c2 := (c1.put "B" () 300 1).state
  let c3 := (c2.put "C" () 300 2).state
  let c4 := (c3.get "A" 3).2
  (c4.put "D" () 300 4).state

/-! ## The model manager (`src/catwalk/core/manager.py`)

`ModelManager` is parametric in the opaque types of model handles `H`,
prediction inputs `I`, prediction outputs `O` and schema values `S`; the
loader internals are external collaborators.  State mutated across calls
(the cache and the `time.time()` clock) is threaded explicitly; two ghost
logs record every invocation of a loader's `load` and `predict` so that
the claims about invocation counts and forwarded arguments are
observable. -/

/-- `dict.get` / `in` on a string-keyed Python dict, as first-binding
lookup. -/
def alookup {A : Type} (l : List (String × A)) (k : String) : Option A :=
  match l with
  | [] => none
  | (k', v) :: rest => if k' = k then some v else alookup rest k

/-- `str.lower()` as used on the config's `type` tag, over the string's
character list (`Char.toLower` is ASCII-only; the type tags involved are
ASCII).  Defined directly on the data so that it evaluates inside the
kernel. -/
def pyLower (s : String) : String :=
  ⟨s.data.map Char.toLower⟩

/-- One entry of `config['models']`.  `type` and `path` are accessed with
`[]` (assumed present in a well-formed parsed YAML config); `version` and
the schemas are read with `.get` and a default. -/
structure ModelConfig (S : Type) where
  type : String
  path : String
  version : Option String := none
  input_schema : Option S := none
  output_schema : Option S := none
  deriving DecidableEq

/-- The loader capability behind `PyTorchLoader` / `TensorFlowLoader`.
The module `catwalk.models.loader` is absent from the repository (only
its `portfolio` twin exists) and the spec treats loader internals as
external collaborators, so the three operations are opaque functions.
`load` may raise (`.error`, caught by `_load_model`'s bare `except`) or
return `None` (`.ok none`), matching the portfolio loaders which swallow
their own exceptions and return `None`. -/
structure ModelLoader (H I O : Type) where
  load : String → Except String (Option H)
  get_memory_usage : H → Int
  predict : H → I → Except String O

/-- `ModelInfo` from `manager.py` (a `NamedTuple`).  `none` for a schema
stands for the `{}` default of `.get('input_schema', {})`. -/
structure ModelInfo (S : Type) where
  version : String
  format : String
  input_schema : Option S
  output_schema : Option S
  memory_usage : Int
  last_used : Option Nat
  deriving DecidableEq

/-- The immutable part of a constructed `ModelManager`: the parsed
`config['models']` mapping, the loader registry
`{'pytorch': ..., 'tensorflow': ...}`, and `_resolve_path` (a pure
function of the config directory; `os.path` is outside the embedding). -/
structure ModelManager (H I O S : Type) where
  config_models : List (String × ModelConfig S)
  loaders : List (String × ModelLoader H I O)
  resolve_path : String → String

/-- Manager-visible mutable state: the cache, the logical `time.time()`
clock, and the two ghost logs (resolved path per `load` call; handle and
inputs per loader `predict` call). -/
structure MState (H I : Type) where
  cache : LRUCache H
  clock : Nat
  load_log : List String
  predict_log : List (H × I)
  deriving DecidableEq

/-- `self.cache.get(model_id)` as seen from the manager: the clock ticks
exactly when the source evaluates `time.time()` (on a hit). -/
def cacheGet {H I : Type} (s : MState H I) (key : String) :
    Option H × MState H I :=
  match s.cache.get key s.clock with
  | (none, c') => (none, { s with cache := c' })
  | (some v, c') => (some v, { s with cache := c', clock := s.clock + 1 })

/-- `self.cache.put(...)` as seen from the manager: `true` when the put
returned, `false` when it raised (the raise is caught by `_load_model`'s
`except`); the cache keeps whatever state the put left it in, and the
clock ticks only when the put reached its `time.time()` call. -/
def cachePut {H I : Type} (s : MState H I) (key : String) (v : H)
    (size : Int) : Bool × MState H I :=
  match s.cache.put key v size s.clock with
  | .ok c => (true, { s with cache := c, clock := s.clock + 1 })
  | .error _ c => (false, { s with cache := c })

/-- `ModelManager._load_model`: resolve the config entry (`None` if
absent), resolve the loader for the lower-cased type (`None` if
unregistered), invoke `loader.load` on the resolved path (logged), and on
success store the handle in the cache under the loader-reported memory
usage.  Every exception — including a `ValueError` escaping `cache.put` —
is caught by the bare `except` and collapsed to `None`. -/
def ModelManager.load_model {H I O S : Type} (m : ModelManager H I O S)
    (s : MState H I) (model_id : String) : Option H × MState H I :=
  match alookup m.config_models model_id with
  | none => (none, s)
  | some mc =>
    let model_type := pyLower mc.type
    let model_path := m.resolve_path mc.path
    match alookup m.loaders model_type with
    | none => (none, s)
    | some loader =>
      let s1 : MState H I := { s with load_log := s.load_log ++ [model_path] }
      match loader.load model_path with
      | .error _ => (none, s1)
      | .ok none => (none, s1)
      | .ok (some model) =>
        let memory_usage := loader.get_memory_usage model
        match cachePut s1 model_id model memory_usage with
        | (true, s2) => (some model, s2)
        | (false, s2) => (none, s2)

/-- `ModelManager.get_model`: try the cache, fall back to
`_load_model`. -/
def ModelManager.get_model {H I O S : Type} (m : ModelManager H I O S)
    (s : MState H I) (model_id : String) : Option H × MState H I :=
  match cacheGet s model_id with
  | (some model, s1) => (some model, s1)
  | (none, s1) => m.load_model s1 model_id

/-- `ModelManager.predict`: get the model (raising
`ValueError("Model ... not found")` when absent), re-resolve the loader
(`config['models'][model_id]` raises `KeyError` if the id vanished from
the config), then delegate to `loader.predict(model, inputs)` — the
`parameters` argument is accepted but never forwarded. -/
def ModelManager.predict {H I O S P : Type} (m : ModelManager H I O S)
    (s : MState H I) (model_id : String) (inputs : I) (parameters : P) :
    Except String O × MState H I :=
  match m.get_model s model_id with
  | (none, s1) => (.error ("Model " ++ model_id ++ " not found"), s1)
  | (some model, s1) =>
    match alookup m.config_models model_id with
    | none => (.error ("KeyError: " ++ model_id), s1)
    | some mc =>
      match alookup m.loaders (pyLower mc.type) with
      | none =>
        (.error ("No loader available for model type: " ++ pyLower mc.type), s1)
      | some loader =>
        let s2 : MState H I :=
          { s1 with predict_log := s1.predict_log ++ [(model, inputs)] }
        (loader.predict model inputs, s2)

/-- `manager.py` line 219 calls `self.cache.get_last_access_time(model_id)`,
but `class LRUCache` defines no such attribute (its methods are `get`,
`put`, `_evict_lru`, `clear`, `size_bytes`, `count`, `stats`): the lookup
raises `AttributeError` unconditionally. -/
def LRUCache.get_last_access_time {T : Type} (_ : LRUCache T)
    (_ : String) : Except String Nat :=
  .error "AttributeError: LRUCache object has no attribute get_last_access_time"

/-- `ModelManager.get_model_info`: config check, then inside `try`: load
the model via `get_model`, resolve the loader, and build the `ModelInfo`
— whose `last_used` field evaluates
`self.cache.get_last_access_time(model_id)`.  The `AttributeError` that
raises is swallowed by `except Exception` into `None`. -/
def ModelManager.get_model_info {H I O S : Type} (m : ModelManager H I O S)
    (s : MState H I) (model_id : String) :
    Option (ModelInfo S) × MState H I :=
  match alookup m.config_models model_id with
  | none => (none, s)
  | some mc =>
    match m.get_model s model_id with
    | (none, s1) => (none, s1)
    | (some model, s1) =>
      let model_type := pyLower mc.type
      match alookup m.loaders model_type with
      | none => (none, s1)
      | some loader =>
        match s1.cache.get_last_access_time model_id with
        | .error _ => (none, s1)
        | .ok t =>
          (some
            { version := mc.version.getD "1.0.0"
              format := model_type
              input_schema := mc.input_schema
              output_schema := mc.output_schema
              memory_usage := loader.get_memory_usage model
              last_used := some t }, s1)

/-! ### Concrete managers used by witnesses and counterexamples -/

/-- A loader whose `load` always succeeds with handle `42` and reports
100 bytes; `predict` adds handle and input. -/
def demoLoader : ModelLoader Nat Nat Nat :=
  { load := fun _ => .ok (some 42)
    get_memory_usage := fun _ => 100
    predict := fun h i => .ok (h + i) }

/-- A loader whose `load` always fails by returning `None`. -/
def demoFailLoader : ModelLoader Nat Nat Nat :=
  { load := fun _ => .ok none
    get_memory_usage := fun _ => 0
    predict := fun _ _ => .error "PredictionFailed" }

/-- A concrete manager: `"m"` is configured for the succeeding pytorch
loader, `"f"` for the failing tensorflow loader, and `"o"` declares type
`"onnx"` for which no loader is registered. -/
def demoManager : ModelManager Nat Nat Nat Nat :=
  { config_models :=
      [("m", { type := "pytorch", path := "models/m.pt" })
      , ("f", { type := "tensorflow", path := "models/f.pb" })
      , ("o", { type := "onnx", path := "models/o.onnx" })]
    loaders := [("pytorch", demoLoader), ("tensorflow", demoFailLoader)]
    resolve_path := fun p => p }

/-- Fresh manager state: empty 1000-byte cache, clock 0, empty logs. -/
def s0 : MState Nat Nat :=
  { cache := LRUCache.init Nat 1000 none
    clock := 0
    load_log := []
    predict_log := [] }

/-! ## Interleaving model of concurrent `get_model` calls (C2)

`get_model` and `_load_model` are `async def`s whose only suspension
point is `await loader.load(model_path)`.  Under Python's cooperative
event loop a `get_model(model_id)` coroutine therefore executes as two
atomic segments: everything up to and including the call that starts the
load (after which it suspends), and everything after the load completes.
Tasks share the manager state; a schedule says which task advances
next. -/

/-- The continuation state of one `get_model model_id` coroutine. -/
inductive TaskState (H : Type) where
  | ready
  | awaitingLoad (loader_type : String) (model_path : String)
  | done (result : Option H)
  deriving Repr, DecidableEq

/-- Advance one coroutine by one atomic segment, mirroring
`get_model`/`_load_model` cut at `await loader.load`: the first segment
performs the cache lookup, the config and loader resolution, and starts
the load (recorded in the ghost log) before suspending; the second segment
consumes the load result, stores a successful handle in the cache
(swallowing a `ValueError` from `put`), and finishes. -/
def stepTask {H I O S : Type} (m : ModelManager H I O S) (s : MState H I)
    (t : TaskState H) (model_id : String) : TaskState H × MState H I :=
  match t with
  | .done r => (.done r, s)
  | .ready =>
    match cacheGet s model_id with
    | (some model, s1) => (.done (some model), s1)
    | (none, s1) =>
      match alookup m.config_models model_id with
      | none => (.done none, s1)
      | some mc =>
        let model_type := pyLower mc.type
        let model_path := m.resolve_path mc.path
        match alookup m.loaders model_type with
        | none => (.done none, s1)
        | some _ =>
          (.awaitingLoad model_type model_path,
            { s1 with load_log := s1.load_log ++ [model_path] })
  | .awaitingLoad model_type model_path =>
    match alookup m.loaders model_type with
    | none => (.done none, s)
    | some loader =>
      match loader.load model_path with
      | .error _ => (.done none, s)
      | .ok none => (.done none, s)
      | .ok (some model) =>
        match cachePut s model_id model (loader.get_memory_usage model) with
        | (true, s2) => (.done (some model), s2)
        | (false, s2) => (.done none, s2)

/-- Two concurrent `get_model model_id` coroutines over shared manager
state. -/
structure TwoTasks (H I : Type) where
  task0 : TaskState H
  task1 : TaskState H
  shared : MState H I
  deriving DecidableEq

/-- Run a schedule over two tasks; `false` advances task 0, `true`
advances task 1. -/
def runSchedule {H I O S : Type} (m : ModelManager H I O S)
    (model_id : String) : List Bool → TwoTasks H I → TwoTasks H I
  | [], st => st
  | false :: rest, st =>
    match stepTask m st.shared st.task0 model_id with
    | (t0, s') =>
      runSchedule m model_id rest
        { task0 := t0, task1 := st.task1, shared := s' }
  | true :: rest, st =>
    match stepTask m st.shared st.task1 model_id with
    | (t1, s') =>
      runSchedule m model_id rest
        { task0 := st.task0, task1 := t1, shared := s' }

/-- One `get_model` coroutine run to completion with no interleaving. -/
def runOneTask {H I O S : Type} (m : ModelManager H I O S) (s : MState H I)
    (model_id : String) : Option H × MState H I :=
  match stepTask m s .ready model_id with
  | (.done r, s1) => (r, s1)
  | (t1, s1) =>
    match stepTask m s1 t1 model_id with
    | (.done r, s2) => (r, s2)
    | (_, s2) => (none, s2)

/-! ## Size parsing (`ModelManager._parse_size`) -/

/-- The whitespace class of Python's `str.strip()` and the regex's `\\s`
(ASCII portion; config size strings are ASCII). -/
def isPySpace (c : Char) : Bool :=
  c == ' ' || c == '\t' || c == '\n' || c == '\r' || c == '\x0b' || c == '\x0c'

/-- `str.strip()`: drop leading and trailing whitespace. -/
def pyStrip (s : String) : String :=
  ⟨((s.data.dropWhile isPySpace).reverse.dropWhile isPySpace).reverse⟩

/-- `str.upper()` (ASCII; `Char.toUpper` only maps ASCII letters). -/
def pyUpper (s : String) : String :=
  ⟨s.data.map Char.toUpper⟩

/-- A successful match of `^(\\d+(?:\\.\\d+)?)\\s*([KMGT]?B)$`: the integer
digits, the optional fractional digits, and the unit. -/
structure SizeMatch where
  intPart : List Char
  fracPart : Option (List Char)
  unit : String
  deriving Repr, DecidableEq

/-- The `([KMGT]?B)$` tail of the regex: the remaining characters must be
exactly one of the five units. -/
def matchUnit : List Char → Option String
  | ['B'] => some "B"
  | ['K', 'B'] => some "KB"
  | ['M', 'B'] => some "MB"
  | ['G', 'B'] => some "GB"
  | ['T', 'B'] => some "TB"
  | _ => none

/-- `re.match(r"^(\\d+(?:\\.\\d+)?)\\s*([KMGT]?B)$", ...)` on the upper-cased,
stripped character list.  `\\d+` and the fractional `\\d+` are greedy; no
backtracking can succeed where the greedy match fails, because a digit
can never begin `\\s*([KMGT]?B)$`. -/
def sizeMatch (l : List Char) : Option SizeMatch :=
  let ds := l.takeWhile Char.isDigit
  let r1 := l.dropWhile Char.isDigit
  if ds.isEmpty then none
  else
    match r1 with
    | '.' :: r2 =>
      let fs := r2.takeWhile Char.isDigit
      let r3 := r2.dropWhile Char.isDigit
      if fs.isEmpty then none
      else
        match matchUnit (r3.dropWhile isPySpace) with
        | some u => some ⟨ds, some fs, u⟩
        | none => none
    | _ =>
      match matchUnit (r1.dropWhile isPySpace) with
      | some u => some ⟨ds, none, u⟩
      | none => none

/-- The multiplier table of `_parse_size` (binary units). -/
def multipliers : List (String × Int) :=
  [("B", 1), ("KB", 1024), ("MB", 1024 ^ 2), ("GB", 1024 ^ 3),
    ("TB", 1024 ^ 4)]

/-- Decimal digits to a natural number. -/
def digitsToNat (l : List Char) : Nat :=
  l.foldl (fun acc c => acc * 10 + (c.toNat - '0'.toNat)) 0

/-- `int(float(number) * multiplier)` in exact arithmetic: for the number
`i.f` with `k` fractional digits this is `(i*10^k + f) * mult / 10^k`
with flooring division (the value is non-negative, so Python's
truncation toward zero is the floor).  Divergence note: Python routes the
number through an IEEE double, whose decimal-to-binary rounding can
perturb the result for numbers a double cannot represent; integer counts
below 2^53 and the claims' inputs are exact either way. -/
def sizeValue (sm : SizeMatch) (mult : Int) : Int :=
  match sm.fracPart with
  | none => (digitsToNat sm.intPart : Int) * mult
  | some f =>
    ((digitsToNat sm.intPart * 10 ^ f.length + digitsToNat f) *
      mult.toNat / 10 ^ f.length : Nat)

/-- `ModelManager._parse_size`: strip, upper-case, match the regex,
look the unit up in the multiplier table and scale.  A failed match
raises `ValueError` (the source message also appends an example list,
elided here).  The `except (ValueError, KeyError)` re-raise branch is
unreachable: a matched number always converts and a matched unit is
always in the table. -/
def parse_size (size_str : String) : Except String Int :=
  let stripped := pyStrip size_str
  match sizeMatch (pyUpper stripped).data with
  | none => .error ("Invalid size format: " ++ stripped)
  | some sm =>
    match alookup multipliers sm.unit with
    | some mult => .ok (sizeValue sm mult)
    | none => .error ("Invalid size format: " ++ stripped)

/-- The claim's shape "a number followed by one of those units" (with the
regex's optional blanks in between), as a decomposition of the
normalized string. -/
def NumberThenUnit (s : String) : Prop :=
  ∃ (i : List Char) (f : Option (List Char)) (sp : List Char) (u : String),
    i ≠ [] ∧ (∀ c ∈ i, c.isDigit) ∧
    (∀ fl, f = some fl → fl ≠ [] ∧ ∀ c ∈ fl, c.isDigit) ∧
    (∀ c ∈ sp, isPySpace c) ∧
    u ∈ ["B", "KB", "MB", "GB", "TB"] ∧
    s.data =
      i ++ (match f with | none => [] | some fl => '.' :: fl) ++ sp ++ u.data

/-! ## Theorems -/

/-- Appending a fresh-keyed binding at the end does not change the lookup
of a different key. -/
theorem odLookup_append_single_ne {T : Type} (l : OD T) (k k' : String)
    (e : CacheEntry T) (h : k' ≠ k) :
    odLookup (l ++ [(k, e)]) k' = odLookup l k' := by
  induction l with
  | nil => simp [odLookup, Ne.symm h]
  | cons p rest ih =>
    obtain ⟨a, b⟩ := p
    simp [odLookup, ih]

/-- Removing the binding of one key does not change the lookup of a
different key. -/
theorem odLookup_odPop_ne {T : Type} (l : OD T) (k k' : String)
    (h : k' ≠ k) :
    odLookup (odPop l k) k' = odLookup l k' := by
  induction l with
  | nil => rfl
  | cons p rest ih =>
    obtain ⟨a, b⟩ := p
    by_cases hak : a = k
    · subst hak
      simp [odPop, odLookup, Ne.symm h]
    · simp [odPop, hak, odLookup, ih]

/-- `evictLoop` satisfies exactly the recurrence of the source's
`while`/`_evict_lru` loop: below the cap it exits at once leaving the
state untouched; above the cap on an empty cache it raises; above the cap
on a non-empty cache it performs one `_evict_lru` step and loops. -/
theorem evictLoop_is_evict_lru_loop {T : Type} (c : LRUCache T)
    (size_bytes : Int) :
    (¬ c.current_size_bytes + size_bytes > c.max_size_bytes →
      c.evictLoop size_bytes = .ok c) ∧
    (c.current_size_bytes + size_bytes > c.max_size_bytes → c.cache = [] →
      c.evictLoop size_bytes =
        .error "Cannot add item: cache full and nothing to evict" c) ∧
    (∀ k e rest, c.current_size_bytes + size_bytes > c.max_size_bytes →
      c.cache = (k, e) :: rest →
      (c.evict_lru).1 = true ∧
        c.evictLoop size_bytes = (c.evict_lru).2.evictLoop size_bytes) := by
  obtain ⟨cc, mx, sl, cur⟩ := c
  refine ⟨fun hover => ?_, fun hover hnil => ?_, fun k e rest hover hc => ?_⟩
  · rw [LRUCache.evictLoop, evictLoopAux.eq_def, if_neg hover]
  · simp only at hnil
    subst hnil
    rw [LRUCache.evictLoop, evictLoopAux.eq_def, if_pos hover]
  · simp only at hc
    subst hc
    refine ⟨rfl, ?_⟩
    rw [LRUCache.evictLoop, evictLoopAux.eq_def, if_pos hover]
    rfl

/-- C1: the size invariant does not survive every operation sequence.
After `put "A" 600; put "B" 300; put "A" 800` on a fresh 1000-byte cache —
three successful `put`s — the live entries sum to 1100 bytes, exceeding
`maxSizeBytes = 1000`, while `currentSizeBytes` records only 500: replacing
a key releases its bytes but leaves the entry in the dictionary, and the
eviction loop then evicts that very entry, subtracting its bytes a second
time. -/
theorem c1_size_invariant_violated :
    ¬ SizeInvariant c1trace ∧
      sumSizes c1trace.cache = 1100 ∧
      c1trace.current_size_bytes = 500 ∧
      c1trace.max_size_bytes = 1000 := by
  decide

/-- C3: an oversized `put` neither reliably fails nor leaves the store
unchanged.  (1) `put "A" 500; put "A" 1200` on a 1000-byte cache *succeeds*
and leaves a 1200-byte entry resident (the double release of A's bytes
makes the eviction loop stop early).  (2) For a fresh key,
`put "A" 300; put "X" 1200` raises only after evicting everything: the
store is emptied, not left unchanged. -/
theorem c3_oversized_put_not_rejected :
    (c3put.isOk = true ∧
      odLookup c3put.state.cache "A" =
        some { value := (), size_bytes := 1200, last_accessed := 1, access_count := 1 } ∧
      c3put.state.max_size_bytes = 1000) ∧
    (c3put2.isOk = false ∧
      c3put2.state.cache = [] ∧
      odLookup (((LRUCache.init Unit 1000 none).put "A" () 300 0).state.cache) "A" ≠ none) := by
  decide

/-- C4: the eviction loop does evict the key being written.  In the
repository's own `test_eviction_with_updates` scenario
(`put model1 400; put model2 400; put model1 800`, cap 1000) the loop
evicts `model1` — the key being updated — and leaves `model2` resident
(the test expects `model2` evicted), with 1200 live bytes against a
recorded 800.  `model1` sits at the most-recent end only because it was
evicted and re-appended mid-`put`. -/
theorem c4_put_evicts_key_being_written :
    (odLookup c4trace.cache "model2").isSome = true ∧
      (odLookup c4trace.cache "model1").isSome = true ∧
      c4trace.cache.map Prod.fst = ["model2", "model1"] ∧
      sumSizes c4trace.cache = 1200 ∧
      c4trace.current_size_bytes = 800 ∧
      (c4trace.get "model2" 3).1 = some "value2" := by
  decide

/-- C5: cache `get` semantics.  On a hit the entry is popped and
reinserted at the most-recently-used end with `last_accessed = now` and
`access_count` incremented, its value is returned, and no other key's
binding nor the byte account changes; on a miss nothing changes and
`none` is returned.  Consequently, with A, B, C each of 300 bytes in a
1000-byte store, `get A; put D 300` evicts exactly B, leaving C, A, D
resident with 900 accounted bytes. -/
theorem c5_get_hit_miss_and_scenario {T : Type} (c : LRUCache T)
    (key k' : String) (now : Nat) (e : CacheEntry T)
    (hk : odLookup c.cache key = some e) (hne : k' ≠ key) :
    ((c.get key now).1 = some e.value ∧
      (c.get key now).2.cache =
        odPop c.cache key ++
          [(key,
            { value := e.value, size_bytes := e.size_bytes
              last_accessed := now, access_count := e.access_count + 1 })] ∧
      odLookup (c.get key now).2.cache k' = odLookup c.cache k' ∧
      (c.get key now).2.current_size_bytes = c.current_size_bytes ∧
      (c.get key now).2.max_size_bytes = c.max_size_bytes) ∧
    (∀ c' : LRUCache T, odLookup c'.cache key = none →
      c'.get key now = (none, c')) ∧
    (c5state.cache.map Prod.fst = ["C", "A", "D"] ∧
      odLookup c5state.cache "B" = none ∧
      (odLookup c5state.cache "A").isSome = true ∧
      (odLookup c5state.cache "C").isSome = true ∧
      (odLookup c5state.cache "D").isSome = true ∧
      c5state.current_size_bytes = 900) := by
  refine ⟨⟨?_, ?_, ?_, ?_, ?_⟩, fun c' h' => ?_, by decide⟩
  · simp [LRUCache.get, hk]
  · simp [LRUCache.get, hk]
  · simp only [LRUCache.get, hk]
    rw [odLookup_append_single_ne _ _ _ _ hne, odLookup_odPop_ne _ _ _ hne]
  · simp [LRUCache.get, hk]
  · simp [LRUCache.get, hk]
  · simp [LRUCache.get, h']

/-- Witness for C5 at a concrete state: in `c5state` the key `"A"` is
resident with entry `⟨(), 300, 3, 2⟩`, and a further `get "A"` at tick 5
returns its value while leaving `"B"` as absent as before. -/
theorem c5_get_hit_miss_and_scenario_witness :
    (c5state.get "A" 5).1 = some () ∧
      odLookup (c5state.get "A" 5).2.cache "B" = odLookup c5state.cache "B" := by
  have h := c5_get_hit_miss_and_scenario (T := Unit) c5state "A" "B" 5
    { value := (), size_bytes := 300, last_accessed := 3, access_count := 2 }
    (by decide) (by decide)
  exact ⟨h.1.1, h.1.2.2.1⟩

/-- Shared helper: when the id misses the cache, is configured, has a
registered loader, and that loader's `load` fails (raises or returns
`None`), `get_model` returns `None` and the only state change is the
ghost record of the `load` invocation — nothing is written to the
cache. -/
theorem get_model_when_load_fails {H I O S : Type}
    (m : ModelManager H I O S) (s : MState H I) (model_id : String)
    (mc : ModelConfig S) (loader : ModelLoader H I O)
    (hmiss : odLookup s.cache.cache model_id = none)
    (hcfg : alookup m.config_models model_id = some mc)
    (hld : alookup m.loaders (pyLower mc.type) = some loader)
    (hfail : (∃ msg, loader.load (m.resolve_path mc.path) = .error msg) ∨
      loader.load (m.resolve_path mc.path) = .ok none) :
    m.get_model s model_id =
      (none, { s with load_log := s.load_log ++ [m.resolve_path mc.path] }) := by
  rcases hfail with ⟨msg, hf⟩ | hf <;>
    simp [ModelManager.get_model, cacheGet, LRUCache.get, hmiss,
      ModelManager.load_model, hcfg, hld, hf]

/-- C6: `get_model_info` never returns a `ModelInfo`.  For every manager,
state and id the result is `None`: when everything else succeeds, the
`last_used` argument evaluates `self.cache.get_last_access_time(...)`, a
method `LRUCache` does not define, and the `AttributeError` is swallowed
into `None`.  Concretely, for `"m"` the model itself loads fine
(`get_model` yields handle 42) yet `get_model_info` still yields
`None`. -/
theorem c6_get_model_info_always_absent :
    (∀ (H I O S : Type) (m : ModelManager H I O S) (s : MState H I)
      (model_id : String), (m.get_model_info s model_id).1 = none) ∧
    ((demoManager.get_model s0 "m").1 = some 42 ∧
      (demoManager.get_model_info s0 "m").1 = none) := by
  refine ⟨fun H I O S m s model_id => ?_, by decide, by decide⟩
  unfold ModelManager.get_model_info
  cases hcfg : alookup m.config_models model_id with
  | none => rfl
  | some mc =>
    rcases hg : m.get_model s model_id with ⟨r, s1⟩
    cases r with
    | none => simp
    | some model =>
      cases hld : alookup m.loaders (pyLower mc.type) with
      | none => simp [hld]
      | some loader => simp [hld, LRUCache.get_last_access_time]

/-- C7 counterexample: the two failure modes the claim requires to be
typed and mutually distinguishable — unconfigured id (`"nope"`) and
configured id with unregistered loader type (`"o"`, type `"onnx"`) —
both return the bare `None` of a plain miss, with identical results and
untouched state. -/
theorem c7_failures_indistinguishable_counterexample :
    (demoManager.get_model s0 "nope").1 = none ∧
      (demoManager.get_model s0 "o").1 = none ∧
      (demoManager.get_model s0 "nope").1 = (demoManager.get_model s0 "o").1 ∧
      (demoManager.get_model s0 "nope").2.cache = s0.cache ∧
      (demoManager.get_model s0 "o").2.cache = s0.cache := by
  decide

/-- C7 amended: `get_model` signals both `ModelNotConfigured`-type and
`LoaderUnavailable`-type failures by returning the untyped `None` with
the state unchanged — failures are logged, collapsed to absence, and not
distinguishable from one another or from a miss. -/
theorem c7_failures_collapse_to_none {H I O S : Type}
    (m : ModelManager H I O S) (s : MState H I) (model_id : String)
    (hmiss : odLookup s.cache.cache model_id = none) :
    (alookup m.config_models model_id = none →
      m.get_model s model_id = (none, s)) ∧
    (∀ mc, alookup m.config_models model_id = some mc →
      alookup m.loaders (pyLower mc.type) = none →
      m.get_model s model_id = (none, s)) := by
  constructor
  · intro hcfg
    simp [ModelManager.get_model, cacheGet, LRUCache.get, hmiss,
      ModelManager.load_model, hcfg]
  · intro mc hcfg hld
    simp [ModelManager.get_model, cacheGet, LRUCache.get, hmiss,
      ModelManager.load_model, hcfg, hld]

/-- Witness for C7 at the concrete manager: both failure modes return
exactly `(none, s0)`. -/
theorem c7_failures_collapse_to_none_witness :
    demoManager.get_model s0 "nope" = (none, s0) ∧
      demoManager.get_model s0 "o" = (none, s0) := by
  refine ⟨(c7_failures_collapse_to_none demoManager s0 "nope" (by decide)).1
    rfl, ?_⟩
  exact (c7_failures_collapse_to_none demoManager s0 "o" (by decide)).2
    { type := "onnx", path := "models/o.onnx" } rfl rfl

/-- C8: a failed load is never cached.  Under a cache miss, with the id
configured and its loader registered but `load` failing (raising or
returning `None`), `get_model` returns `None`, the cache is bit-for-bit
unchanged (in particular no entry and no failure marker for the id), and
a second `get_model` invokes the loader's `load` again — the ghost load
log grows by one resolved path per call. -/
theorem c8_no_negative_caching {H I O S : Type}
    (m : ModelManager H I O S) (s : MState H I) (model_id : String)
    (mc : ModelConfig S) (loader : ModelLoader H I O)
    (hmiss : odLookup s.cache.cache model_id = none)
    (hcfg : alookup m.config_models model_id = some mc)
    (hld : alookup m.loaders (pyLower mc.type) = some loader)
    (hfail : (∃ msg, loader.load (m.resolve_path mc.path) = .error msg) ∨
      loader.load (m.resolve_path mc.path) = .ok none) :
    (m.get_model s model_id).1 = none ∧
      (m.get_model s model_id).2.cache = s.cache ∧
      odLookup (m.get_model s model_id).2.cache.cache model_id = none ∧
      (m.get_model s model_id).2.load_log =
        s.load_log ++ [m.resolve_path mc.path] ∧
      (m.get_model (m.get_model s model_id).2 model_id).1 = none ∧
      (m.get_model (m.get_model s model_id).2 model_id).2.load_log =
        s.load_log ++ [m.resolve_path mc.path, m.resolve_path mc.path] := by
  have h1 := get_model_when_load_fails m s model_id mc loader hmiss hcfg hld hfail
  have h2 := get_model_when_load_fails m
    { s with load_log := s.load_log ++ [m.resolve_path mc.path] }
    model_id mc loader hmiss hcfg hld hfail
  rw [h1]
  simp [h2, hmiss]

/-- Witness for C8 at the concrete manager: `"f"`'s tensorflow loader
returns `None`; two consecutive `get_model "f"` calls both fail and the
load log shows two invocations. -/
theorem c8_no_negative_caching_witness :
    (demoManager.get_model s0 "f").1 = none ∧
      (demoManager.get_model (demoManager.get_model s0 "f").2 "f").2.load_log =
        ["models/f.pb", "models/f.pb"] := by
  have h := c8_no_negative_caching demoManager s0 "f"
    { type := "tensorflow", path := "models/f.pb" } demoFailLoader
    (by decide) rfl rfl (Or.inr rfl)
  exact ⟨h.1, by simpa using h.2.2.2.2.2⟩

/-- C10: `predict` never forwards its `parameters` argument.  Two calls
differing only in `parameters` — even in its type — are equal in result
and in post-state, and the loader's `predict` receives exactly the model
handle and the inputs: concretely, predicting on `"m"` with inputs `7`
logs the delegated call `(42, 7)` whatever the parameters were. -/
theorem c10_parameters_never_forwarded :
    (∀ (H I O S P Q : Type) (m : ModelManager H I O S) (s : MState H I)
      (model_id : String) (inputs : I) (p : P) (q : Q),
      m.predict s model_id inputs p = m.predict s model_id inputs q) ∧
    ((demoManager.predict s0 "m" 7 (3 : Nat)).1 = .ok 49 ∧
      (demoManager.predict s0 "m" 7 (3 : Nat)).2.predict_log = [(42, 7)] ∧
      (demoManager.predict s0 "m" 7 "other-params").2.predict_log =
        [(42, 7)]) := by
  exact ⟨fun _ _ _ _ _ _ _ _ _ _ _ _ => rfl, rfl, by decide, by decide⟩

/-- Setting a key makes its lookup return exactly the new entry. -/
theorem odLookup_odSet_self {T : Type} (l : OD T) (k : String)
    (e : CacheEntry T) : odLookup (odSet l k e) k = some e := by
  induction l with
  | nil => simp [odSet, odLookup]
  | cons p rest ih =>
    obtain ⟨a, b⟩ := p
    by_cases hak : a = k
    · simp [odSet, hak, odLookup]
    · simp [odSet, hak, odLookup, ih]

/-- A `put` of a fresh key that fits under the cap evicts nothing and
succeeds, appending the new entry and accounting its bytes. -/
theorem put_fresh_ok {T : Type} (c : LRUCache T) (k : String) (v : T)
    (size : Int) (now : Nat) (hmiss : odLookup c.cache k = none)
    (hfit : ¬ c.current_size_bytes + size > c.max_size_bytes) :
    c.put k v size now = .ok
      { c with
        cache := odSet c.cache k
          { value := v, size_bytes := size, last_accessed := now
            access_count := 1 }
        current_size_bytes := c.current_size_bytes + size } := by
  simp [LRUCache.put, hmiss, LRUCache.evictLoop, evictLoopAux.eq_def, hfit]

/-- A `put` over an existing key that fits under the cap once the old
bytes are released evicts nothing and succeeds as an in-place replace. -/
theorem put_replace_ok {T : Type} (c : LRUCache T) (k : String) (v : T)
    (size : Int) (now : Nat) (e : CacheEntry T)
    (hk : odLookup c.cache k = some e)
    (hfit : ¬ c.current_size_bytes - e.size_bytes + size >
      c.max_size_bytes) :
    c.put k v size now = .ok
      { c with
        cache := odSet c.cache k
          { value := v, size_bytes := size, last_accessed := now
            access_count := 1 }
        current_size_bytes := c.current_size_bytes - e.size_bytes + size } := by
  simp [LRUCache.put, hk, LRUCache.evictLoop, evictLoopAux.eq_def, hfit]

/-- The coroutine segmentation is faithful: one task run to completion
with no interleaving computes exactly the sequential `get_model`. -/
theorem runOneTask_eq_get_model {H I O S : Type} (m : ModelManager H I O S)
    (s : MState H I) (model_id : String) :
    runOneTask m s model_id = m.get_model s model_id := by
  unfold runOneTask stepTask ModelManager.get_model ModelManager.load_model
  rcases hg : cacheGet s model_id with ⟨r, s1⟩
  cases r with
  | some model => simp
  | none =>
    cases hcfg : alookup m.config_models model_id with
    | none => simp
    | some mc =>
      cases hld : alookup m.loaders (pyLower mc.type) with
      | none => simp [hld]
      | some loader =>
        cases hload : loader.load (m.resolve_path mc.path) with
        | error msg => simp [hld, hload]
        | ok o =>
          cases o with
          | none => simp [hld, hload]
          | some model =>
            rcases hput : cachePut
              { s1 with load_log := s1.load_log ++ [m.resolve_path mc.path] }
              model_id model (loader.get_memory_usage model) with ⟨b, s2⟩
            cases b <;> simp [hld, hload, hput]

/-- First coroutine segment under a cache miss with the id configured and
its loader registered: the task suspends awaiting the load, which is
already recorded as invoked. -/
theorem stepTask_ready_miss {H I O S : Type} (m : ModelManager H I O S)
    (s : MState H I) (model_id : String) (mc : ModelConfig S)
    (loader : ModelLoader H I O)
    (hmiss : odLookup s.cache.cache model_id = none)
    (hcfg : alookup m.config_models model_id = some mc)
    (hld : alookup m.loaders (pyLower mc.type) = some loader) :
    stepTask m s .ready model_id =
      (.awaitingLoad (pyLower mc.type) (m.resolve_path mc.path),
        { s with load_log := s.load_log ++ [m.resolve_path mc.path] }) := by
  simp [stepTask, cacheGet, LRUCache.get, hmiss, hcfg, hld]

/-- C2 counterexample: two concurrent `get_model "m"` calls for the
uncached, configured id `"m"`, interleaved so that both pass their cache
check before either load completes (schedule task0, task1, task0, task1).
After the first two steps both coroutines are simultaneously awaiting a
load — two loads in flight — and on completion the loader's `load` has
been invoked twice, not once, though both callers do observe the same
handle. -/
theorem c2_single_flight_counterexample :
    (runSchedule demoManager "m" [false, true] ⟨.ready, .ready, s0⟩).task0 =
        .awaitingLoad "pytorch" "models/m.pt" ∧
      (runSchedule demoManager "m" [false, true] ⟨.ready, .ready, s0⟩).task1 =
        .awaitingLoad "pytorch" "models/m.pt" ∧
      (runSchedule demoManager "m"
          [false, true, false, true] ⟨.ready, .ready, s0⟩).task0 =
        .done (some 42) ∧
      (runSchedule demoManager "m"
          [false, true, false, true] ⟨.ready, .ready, s0⟩).task1 =
        .done (some 42) ∧
      (runSchedule demoManager "m"
          [false, true, false, true] ⟨.ready, .ready, s0⟩).shared.load_log =
        ["models/m.pt", "models/m.pt"] ∧
      (runSchedule demoManager "m"
          [false, false, true, true] ⟨.ready, .ready, s0⟩).shared.load_log =
        ["models/m.pt"] := by
  decide

/-- C2 amended: the manager has no single-flight coordination.  Whenever
two concurrent `get_model` calls for an uncached, configured id with a
registered, succeeding loader both pass their cache check before either
load completes, each invokes the loader's `load` (two invocations, and
both loads are simultaneously in flight after the first two steps); each
caller then completes with the handle produced by its own invocation. -/
theorem c2_interleaved_gets_invoke_load_twice {H I O S : Type}
    (m : ModelManager H I O S) (s : MState H I) (model_id : String)
    (mc : ModelConfig S) (loader : ModelLoader H I O) (h : H)
    (hmiss : odLookup s.cache.cache model_id = none)
    (hcfg : alookup m.config_models model_id = some mc)
    (hld : alookup m.loaders (pyLower mc.type) = some loader)
    (hload : loader.load (m.resolve_path mc.path) = .ok (some h))
    (hfit : ¬ s.cache.current_size_bytes + loader.get_memory_usage h >
      s.cache.max_size_bytes) :
    (runSchedule m model_id [false, true] ⟨.ready, .ready, s⟩).task0 =
        .awaitingLoad (pyLower mc.type) (m.resolve_path mc.path) ∧
      (runSchedule m model_id [false, true] ⟨.ready, .ready, s⟩).task1 =
        .awaitingLoad (pyLower mc.type) (m.resolve_path mc.path) ∧
      (runSchedule m model_id
          [false, true, false, true] ⟨.ready, .ready, s⟩).task0 =
        .done (some h) ∧
      (runSchedule m model_id
          [false, true, false, true] ⟨.ready, .ready, s⟩).task1 =
        .done (some h) ∧
      (runSchedule m model_id
          [false, true, false, true] ⟨.ready, .ready, s⟩).shared.load_log =
        s.load_log ++ [m.resolve_path mc.path, m.resolve_path mc.path] := by
  have h1 := stepTask_ready_miss m s model_id mc loader hmiss hcfg hld
  have h2 := stepTask_ready_miss m
    { s with load_log := s.load_log ++ [m.resolve_path mc.path] }
    model_id mc loader hmiss hcfg hld
  have hput1 : s.cache.put model_id h (loader.get_memory_usage h) s.clock =
      .ok
        { s.cache with
          cache := odSet s.cache.cache model_id
            { value := h, size_bytes := loader.get_memory_usage h
              last_accessed := s.clock, access_count := 1 }
          current_size_bytes :=
            s.cache.current_size_bytes + loader.get_memory_usage h } :=
    put_fresh_ok s.cache model_id h (loader.get_memory_usage h) s.clock
      hmiss hfit
  have hput2 :
      ({ s.cache with
          cache := odSet s.cache.cache model_id
            { value := h, size_bytes := loader.get_memory_usage h
              last_accessed := s.clock, access_count := 1 }
          current_size_bytes :=
            s.cache.current_size_bytes + loader.get_memory_usage h
        : LRUCache H }).put
        model_id h (loader.get_memory_usage h) (s.clock + 1) =
      .ok
        { s.cache with
          cache := odSet
            (odSet s.cache.cache model_id
              { value := h, size_bytes := loader.get_memory_usage h
                last_accessed := s.clock, access_count := 1 })
            model_id
            { value := h, size_bytes := loader.get_memory_usage h
              last_accessed := s.clock + 1, access_count := 1 }
          current_size_bytes :=
            s.cache.current_size_bytes + loader.get_memory_usage h -
              loader.get_memory_usage h + loader.get_memory_usage h } :=
    put_replace_ok _ model_id h (loader.get_memory_usage h) (s.clock + 1)
      { value := h, size_bytes := loader.get_memory_usage h
        last_accessed := s.clock, access_count := 1 }
      (odLookup_odSet_self _ _ _) (by simpa using hfit)
  have h3 : stepTask m
      { s with load_log :=
          s.load_log ++ [m.resolve_path mc.path, m.resolve_path mc.path] }
      (.awaitingLoad (pyLower mc.type) (m.resolve_path mc.path)) model_id =
      (.done (some h),
        { s with
          cache :=
            { s.cache with
              cache := odSet s.cache.cache model_id
                { value := h, size_bytes := loader.get_memory_usage h
                  last_accessed := s.clock, access_count := 1 }
              current_size_bytes :=
                s.cache.current_size_bytes + loader.get_memory_usage h }
          clock := s.clock + 1
          load_log :=
            s.load_log ++ [m.resolve_path mc.path, m.resolve_path mc.path] }) := by
    simp [stepTask, hld, hload, cachePut, hput1]
  have h4 : stepTask m
      { s with
        cache :=
          { s.cache with
            cache := odSet s.cache.cache model_id
              { value := h, size_bytes := loader.get_memory_usage h
                last_accessed := s.clock, access_count := 1 }
            current_size_bytes :=
              s.cache.current_size_bytes + loader.get_memory_usage h }
        clock := s.clock + 1
        load_log :=
          s.load_log ++ [m.resolve_path mc.path, m.resolve_path mc.path] }
      (.awaitingLoad (pyLower mc.type) (m.resolve_path mc.path)) model_id =
      (.done (some h),
        { s with
          cache :=
            { s.cache with
              cache := odSet
                (odSet s.cache.cache model_id
                  { value := h, size_bytes := loader.get_memory_usage h
                    last_accessed := s.clock, access_count := 1 })
                model_id
                { value := h, size_bytes := loader.get_memory_usage h
                  last_accessed := s.clock + 1, access_count := 1 }
              current_size_bytes :=
                s.cache.current_size_bytes + loader.get_memory_usage h -
                  loader.get_memory_usage h + loader.get_memory_usage h }
          clock := s.clock + 2
          load_log :=
            s.load_log ++ [m.resolve_path mc.path, m.resolve_path mc.path] }) := by
    simp [stepTask, hld, hload, cachePut, hput2]
  refine ⟨?_, ?_, ?_, ?_, ?_⟩ <;>
    simp [runSchedule, h1, h2, h3, h4]

/-- Witness for C2 at the concrete manager: the interleaved schedule
invokes the pytorch loader's `load` twice and both callers finish with
handle 42. -/
theorem c2_interleaved_gets_invoke_load_twice_witness :
    (runSchedule demoManager "m" [false, true, false, true]
        ⟨.ready, .ready, s0⟩).shared.load_log =
      ["models/m.pt", "models/m.pt"] ∧
    (runSchedule demoManager "m" [false, true, false, true]
        ⟨.ready, .ready, s0⟩).task0 = .done (some 42) := by
  have h := c2_interleaved_gets_invoke_load_twice demoManager s0 "m"
    { type := "pytorch", path := "models/m.pt" } demoLoader 42
    (by decide) (by decide) rfl rfl (by decide)
  exact ⟨by simpa using h.2.2.2.2, h.2.2.1⟩

/-- A successful unit match consumes exactly one of the five unit
strings. -/
theorem matchUnit_sound (cs : List Char) (u : String)
    (h : matchUnit cs = some u) :
    cs = u.data ∧ u ∈ ["B", "KB", "MB", "GB", "TB"] := by
  unfold matchUnit at h
  split at h <;>
    first
      | (injection h with h; subst h; exact ⟨rfl, by decide⟩)
      | simp_all

/-- Soundness of the regex model: a successful match decomposes the
input as non-empty digits, an optional non-empty fraction, blanks, and
one of the five units. -/
theorem sizeMatch_sound (l : List Char) (sm : SizeMatch)
    (h : sizeMatch l = some sm) :
    sm.intPart ≠ [] ∧ (∀ c ∈ sm.intPart, c.isDigit) ∧
      (∀ fl, sm.fracPart = some fl → fl ≠ [] ∧ ∀ c ∈ fl, c.isDigit) ∧
      sm.unit ∈ ["B", "KB", "MB", "GB", "TB"] ∧
      ∃ sp, (∀ c ∈ sp, isPySpace c) ∧
        l = sm.intPart ++
          (match sm.fracPart with | none => [] | some fl => '.' :: fl) ++
          sp ++ sm.unit.data := by
  simp only [sizeMatch] at h
  split at h
  · exact absurd h (by simp)
  · rename_i hds
    split at h
    · rename_i r2 hr1
      split at h
      · exact absurd h (by simp)
      · rename_i hfs
        split at h
        · rename_i u hmu
          cases h
          obtain ⟨hcs, hu⟩ := matchUnit_sound _ _ hmu
          refine ⟨by simpa using hds, fun c hc => List.mem_takeWhile_imp hc,
            ?_, hu, r2.dropWhile Char.isDigit |>.takeWhile isPySpace, ?_, ?_⟩
          · intro fl hfl
            cases hfl
            exact ⟨by simpa using hfs, fun c hc => List.mem_takeWhile_imp hc⟩
          · exact fun c hc => List.mem_takeWhile_imp hc
          · conv_lhs => rw [← List.takeWhile_append_dropWhile (p := Char.isDigit) (l := l)]
            rw [hr1]
            simp only [List.cons_append, List.append_assoc]
            congr 1
            congr 1
            conv_lhs => rw [← List.takeWhile_append_dropWhile (p := Char.isDigit) (l := r2)]
            congr 1
            conv_lhs => rw [← List.takeWhile_append_dropWhile (p := isPySpace)
              (l := r2.dropWhile Char.isDigit)]
            rw [hcs]
        · exact absurd h (by simp)
    · split at h
      · rename_i u hmu
        cases h
        obtain ⟨hcs, hu⟩ := matchUnit_sound _ _ hmu
        refine ⟨by simpa using hds, fun c hc => List.mem_takeWhile_imp hc,
          by simp, hu, l.dropWhile Char.isDigit |>.takeWhile isPySpace, ?_, ?_⟩
        · exact fun c hc => List.mem_takeWhile_imp hc
        · conv_lhs => rw [← List.takeWhile_append_dropWhile (p := Char.isDigit) (l := l)]
          simp only [List.append_assoc, List.nil_append]
          congr 1
          conv_lhs => rw [← List.takeWhile_append_dropWhile (p := isPySpace)
            (l := l.dropWhile Char.isDigit)]
          rw [hcs]
      · exact absurd h (by simp)

/-- C9: size parsing uses binary multipliers — `"1KB"` is 1024 bytes,
`"1MB"` 1024², `"1GB"` 1024³ = 1073741824, `"1TB"` 1024⁴ — and every
string that does not normalize (strip + upper-case) to a number followed
by optional blanks and one of the units B, KB, MB, GB, TB fails with the
`Invalid size format` `ValueError`: any successful parse exhibits that
decomposition, so non-matching strings can only take the error branch. -/
theorem c9_parse_size_binary_units :
    parse_size "1GB" = .ok 1073741824 ∧
      parse_size "1KB" = .ok 1024 ∧
      parse_size "1MB" = .ok 1048576 ∧
      parse_size "1TB" = .ok 1099511627776 ∧
      parse_size "7B" = .ok 7 ∧
      parse_size "1.5GB" = .ok 1610612736 ∧
      parse_size "nonsense" = .error "Invalid size format: nonsense" ∧
      parse_size "12" = .error "Invalid size format: 12" ∧
      parse_size "1.GB" = .error "Invalid size format: 1.GB" ∧
      (∀ s n, parse_size s = .ok n → NumberThenUnit (pyUpper (pyStrip s))) := by
  refine ⟨rfl, rfl, rfl, rfl, rfl, rfl, rfl, rfl, rfl, ?_⟩
  intro s n hok
  simp only [parse_size] at hok
  rcases hsm : sizeMatch (pyUpper (pyStrip s)).data with _ | sm
  · rw [hsm] at hok
    simp at hok
  · obtain ⟨hi, hdig, hfrac, hu, sp, hsp, hdecomp⟩ := sizeMatch_sound _ _ hsm
    exact ⟨sm.intPart, sm.fracPart, sp, sm.unit, hi, hdig, hfrac, hsp, hu,
      hdecomp⟩

/-- Witness for C9: the successful parse of `"1GB"` indeed exhibits the
number-then-unit decomposition of its normalization. -/
theorem c9_parse_size_binary_units_witness :
    NumberThenUnit (pyUpper (pyStrip "1GB")) :=
  c9_parse_size_binary_units.2.2.2.2.2.2.2.2.2 "1GB" 1073741824 rfl
